import Mathlib

/-!
Shallow embedding of the "Sentinel Integrity Layer" core logic
(`runIntegrityScan` and its mock fixtures) and of the Dashboard page's
`executeScan` handler.

Modelling conventions:
* JavaScript numbers are modelled as exact rationals (`ℚ`); the decimal
  literals of the source (`0.6`, `0.8`, `0.1`, `0.95`, ...) denote the
  corresponding rationals.
* `Record<string, any>` payloads are modelled as association lists
  `List (String × α)` over an arbitrary value type `α`; the source only
  ever inspects `Object.keys(payload).length`.  The defensive falsy check
  `!event.dataPayload` is modelled by wrapping the payload in `Option`.
* `Date.now()` is modelled by explicit integer time parameters, one per
  call site, in call order (`t0` at scan start, `t1` for the duration
  computation, `t2` for the report timestamp).
* The two `forEach` loops that mutate the local `violations` array and
  the `criticalAssetCount` counter are modelled as left folds of a step
  function over an explicit `ScanState`; the state also carries the two
  input collections, which the loop bodies read but never write.
-/

/-- Geographic point; `zoneId` is optional (`zoneId?: string`). -/
structure Location where
  latitude : ℚ
  longitude : ℚ
  zoneId : Option String
deriving DecidableEq

/-- The status-code vocabulary of asset events. -/
inductive StatusCode where
  | ERROR
  | TASK_COMMENCED
  | COMPLETED
  | IDLE
deriving DecidableEq

/-- One reported state transition of a tracked asset.  `α` is the type of
payload values (`any` in the source). -/
structure AssetEvent (α : Type) where
  assetUuid : String
  originKey : String
  location : Location
  timestamp : ℤ
  statusCode : StatusCode
  dataPayload : Option (List (String × α))
deriving DecidableEq

/-- Operator role vocabulary. -/
inductive Role where
  | AGENT
  | PILOT
  | COMMAND
deriving DecidableEq

/-- Location without a zone (`Omit<Location, 'zoneId'>`). -/
structure LocationNoZone where
  latitude : ℚ
  longitude : ℚ
deriving DecidableEq

/-- Current trust level and assignment of a human operator.
`currentTaskId : string | null` becomes an `Option`. -/
structure OperatorStatus where
  operatorId : String
  trustRating : ℚ
  currentTaskId : Option String
  lastKnownLocation : LocationNoZone
  role : Role
deriving DecidableEq

/-- Violation type vocabulary. -/
inductive ViolationType where
  | TRUST_VIOLATION
  | DATA_INTEGRITY
  | PROTOCOL_BREACH
deriving DecidableEq

/-- Severity vocabulary. -/
inductive Severity where
  | CRITICAL
  | WARNING
  | NOTICE
deriving DecidableEq

/-- A single compliance violation detected by the Sentinel scan. -/
structure Violation where
  id : String
  type : ViolationType
  description : String
  severity : Severity
  protocolRef : String
deriving DecidableEq

/-- The complete Sentinel Integrity Report. -/
structure IntegrityReport where
  timestamp : ℤ
  systemHealthScore : ℚ
  criticalAssetCount : ℕ
  violations : List Violation
  scanDurationMs : ℤ
deriving DecidableEq

/-- JavaScript's `x.toFixed(2)`: decimal string with exactly two fraction
digits, nearest value, ties toward the larger candidate. -/
def toFixed2 (q : ℚ) : String :=
  let n : ℤ := round (q * 100)
  let sign := if n < 0 then "-" else ""
  let m := n.natAbs
  sign ++ toString (m / 100) ++ "." ++
    (if m % 100 < 10 then "0" else "") ++ toString (m % 100)

/-- The check `!event.dataPayload || Object.keys(event.dataPayload).length === 0`
from Pass A (`true` when the payload is absent or has zero entries). -/
def payloadMissing {α : Type} (p : Option (List (String × α))) : Bool :=
  match p with
  | none => true
  | some entries => entries.length == 0

/-- The violation literal pushed by Pass A for an ERROR event whose audit
payload is missing (CCP-3.1). -/
def assetViolation {α : Type} (event : AssetEvent α) : Violation :=
  { id := event.assetUuid
    type := .DATA_INTEGRITY
    description := "Asset reported ERROR status without required audit payload."
    severity := .CRITICAL
    protocolRef := "CCP-3.1" }

/-- The violation literal pushed by Pass B's first branch (CCP-4.1). -/
def trustViolation (status : OperatorStatus) : Violation :=
  { id := status.operatorId
    type := .TRUST_VIOLATION
    description := "Sub-baseline Operator (" ++ toFixed2 status.trustRating ++
      ") actively assigned to task."
    severity := .CRITICAL
    protocolRef := "CCP-4.1" }

/-- The violation literal pushed by Pass B's second branch (CCP-4.2). -/
def breachViolation (status : OperatorStatus) : Violation :=
  { id := status.operatorId
    type := .PROTOCOL_BREACH
    description := "Operator trust unstable; requires immediate Skill Verification pathway."
    severity := .WARNING
    protocolRef := "CCP-4.2" }

/-- Mutable state of the scan: the two input collections (read-only in the
source: the loops never assign to them) together with the local
`violations` array and the `criticalAssetCount` counter. -/
structure ScanState (α : Type) where
  allEvents : List (AssetEvent α)
  allStatuses : List OperatorStatus
  violations : List Violation
  criticalAssetCount : ℕ
deriving DecidableEq

/-- Body of Pass A's `forEach`: on an ERROR event increment the counter,
then push a CCP-3.1 violation when the audit payload is missing. -/
def stepA {α : Type} (st : ScanState α) (event : AssetEvent α) : ScanState α :=
  if event.statusCode = .ERROR then
    let st' := { st with criticalAssetCount := st.criticalAssetCount + 1 }
    if payloadMissing event.dataPayload then
      { st' with violations := st'.violations ++ [assetViolation event] }
    else st'
  else st

/-- Body of Pass B's `forEach`: the two ordered trust branches
(CCP-4.1, then CCP-4.2). -/
def stepB {α : Type} (st : ScanState α) (status : OperatorStatus) : ScanState α :=
  if status.trustRating < mkRat 6 10 ∧ status.currentTaskId ≠ none then
    { st with violations := st.violations ++ [trustViolation status] }
  else if status.trustRating < mkRat 8 10 ∧ status.currentTaskId = none then
    { st with violations := st.violations ++ [breachViolation status] }
  else st

/-- State after both passes, starting from empty `violations` and a zero
counter. -/
def scanFinalState {α : Type} (allEvents : List (AssetEvent α))
    (allStatuses : List OperatorStatus) : ScanState α :=
  List.foldl stepB (List.foldl stepA ⟨allEvents, allStatuses, [], 0⟩ allEvents) allStatuses

/-- The scan algorithm `runIntegrityScan`.  `t0`, `t1`, `t2` are the values
of the three `Date.now()` calls (scan start, duration computation, report
timestamp), in evaluation order. -/
def runIntegrityScan {α : Type} (t0 t1 t2 : ℤ) (allEvents : List (AssetEvent α))
    (allStatuses : List OperatorStatus) : IntegrityReport :=
  let startTime := t0
  let st := scanFinalState allEvents allStatuses
  let penalty : ℚ := ((st.violations.filter fun v => v.severity == .CRITICAL).length : ℚ) * mkRat 1 10
  let systemHealthScore : ℚ := max 0 (1 - penalty)
  let scanDurationMs := t1 - startTime
  { timestamp := t2
    systemHealthScore := (round (systemHealthScore * 100) : ℚ) / 100
    criticalAssetCount := st.criticalAssetCount
    violations := st.violations
    scanDurationMs := scanDurationMs }

/-- The mock asset events.  The source initialises each `timestamp` with
`Date.now()`; `tA`, `tB` stand for those two call results. -/
def MOCK_ASSET_EVENTS (tA tB : ℤ) : List (AssetEvent ℕ) :=
  [ { assetUuid := "ASSET-101", originKey := "SCAN-A"
      location := { latitude := mkRat 34 1, longitude := mkRat (-118) 1, zoneId := some "Z1" }
      timestamp := tA, statusCode := .TASK_COMMENCED
      dataPayload := some [("taskStep", 2)] }
  , { assetUuid := "ASSET-202", originKey := "SCAN-B"
      location := { latitude := mkRat 341 10, longitude := mkRat (-1181) 10, zoneId := some "Z2" }
      timestamp := tB, statusCode := .ERROR
      dataPayload := some [] } ]

/-- The mock operator statuses. -/
def MOCK_OPERATOR_STATUSES : List OperatorStatus :=
  [ { operatorId := "OP-JANE", trustRating := mkRat 95 100, currentTaskId := some "T-456"
      lastKnownLocation := { latitude := mkRat 3405 100, longitude := mkRat (-11805) 100 }, role := .PILOT }
  , { operatorId := "OP-JOE", trustRating := mkRat 58 100, currentTaskId := some "T-789"
      lastKnownLocation := { latitude := mkRat 3415 100, longitude := mkRat (-11815) 100 }, role := .AGENT }
  , { operatorId := "OP-KORE", trustRating := mkRat 72 100, currentTaskId := none
      lastKnownLocation := { latitude := mkRat 3420 100, longitude := mkRat (-11820) 100 }, role := .AGENT } ]

/-- The concrete CCP-3.1 violation produced by the mock fixture
`ASSET-202` (ERROR status, empty payload). -/
def mockAssetViolation : Violation :=
  { id := "ASSET-202"
    type := .DATA_INTEGRITY
    description := "Asset reported ERROR status without required audit payload."
    severity := .CRITICAL
    protocolRef := "CCP-3.1" }

/-- UI state of the Dashboard page: the held report (absent before the
first scan completes) and the scanning-in-progress flag. -/
structure PageState where
  report : Option IntegrityReport
  isScanning : Bool
deriving DecidableEq

/-- Trace of one `executeScan` invocation: the state right after
`setIsScanning(true)` (while the engine runs), the state after the
`try`/`catch`/`finally` completes, and whether `console.error` ran. -/
structure ScanTrace where
  midState : PageState
  finalState : PageState
  loggedError : Bool
deriving DecidableEq

/-- The Dashboard page's `executeScan` handler.  `outcome` is the result
of awaiting `runIntegrityScan` (`.ok` a report, or `.error` a thrown
value): on success the held report is replaced, on failure the error is
logged and the report left alone; the `finally` block clears the
in-progress flag on both paths. -/
def executeScan {ε : Type} (st : PageState) (outcome : Except ε IntegrityReport) :
    ScanTrace :=
  let mid : PageState := { st with isScanning := true }
  match outcome with
  | .ok scanReport =>
      { midState := mid
        finalState := { mid with report := some scanReport, isScanning := false }
        loggedError := false }
  | .error _ =>
      { midState := mid
        finalState := { mid with isScanning := false }
        loggedError := true }

/-- Outcome of Pass A's loop body for one event, as an optional violation:
`some` exactly when the event has ERROR status and a missing audit payload. -/
def assetCheck {α : Type} (e : AssetEvent α) : Option Violation :=
  if e.statusCode = .ERROR ∧ payloadMissing e.dataPayload then some (assetViolation e)
  else none

/-- Outcome of Pass B's loop body for one operator, as an optional
violation: the two ordered branches of the source. -/
def operatorCheck (s : OperatorStatus) : Option Violation :=
  if s.trustRating < mkRat 6 10 ∧ s.currentTaskId ≠ none then some (trustViolation s)
  else if s.trustRating < mkRat 8 10 ∧ s.currentTaskId = none then some (breachViolation s)
  else none

/-- Number of CRITICAL violations in a list (the `violations.filter(...)`
count of the scoring step). -/
def criticalCount (vs : List Violation) : ℕ :=
  (vs.filter fun v => v.severity == .CRITICAL).length

theorem stepA_violations {α : Type} (st : ScanState α) (e : AssetEvent α) :
    (stepA st e).violations = st.violations ++ (assetCheck e).toList := by
  simp only [stepA, assetCheck]
  split_ifs with h1 h2 h3 <;> simp_all

theorem stepA_count {α : Type} (st : ScanState α) (e : AssetEvent α) :
    (stepA st e).criticalAssetCount
      = st.criticalAssetCount + (if e.statusCode = .ERROR then 1 else 0) := by
  simp only [stepA]
  split_ifs with h1 h2 <;> simp_all

theorem stepA_allEvents {α : Type} (st : ScanState α) (e : AssetEvent α) :
    (stepA st e).allEvents = st.allEvents := by
  simp only [stepA]
  split_ifs <;> rfl

theorem stepA_allStatuses {α : Type} (st : ScanState α) (e : AssetEvent α) :
    (stepA st e).allStatuses = st.allStatuses := by
  simp only [stepA]
  split_ifs <;> rfl

theorem stepB_violations {α : Type} (st : ScanState α) (s : OperatorStatus) :
    (stepB st s).violations = st.violations ++ (operatorCheck s).toList := by
  simp only [stepB, operatorCheck]
  split_ifs
  all_goals simp

theorem stepB_count {α : Type} (st : ScanState α) (s : OperatorStatus) :
    (stepB st s).criticalAssetCount = st.criticalAssetCount := by
  simp only [stepB]
  split_ifs <;> rfl

theorem stepB_allEvents {α : Type} (st : ScanState α) (s : OperatorStatus) :
    (stepB st s).allEvents = st.allEvents := by
  simp only [stepB]
  split_ifs <;> rfl

theorem stepB_allStatuses {α : Type} (st : ScanState α) (s : OperatorStatus) :
    (stepB st s).allStatuses = st.allStatuses := by
  simp only [stepB]
  split_ifs <;> rfl

theorem foldA_violations {α : Type} (evs : List (AssetEvent α)) :
    ∀ st : ScanState α,
      (List.foldl stepA st evs).violations = st.violations ++ evs.filterMap assetCheck := by
  induction evs with
  | nil => intro st; simp
  | cons e evs ih =>
      intro st
      rw [List.foldl_cons, ih, stepA_violations]
      cases h : assetCheck e <;> simp [h]

theorem foldA_count {α : Type} (evs : List (AssetEvent α)) :
    ∀ st : ScanState α,
      (List.foldl stepA st evs).criticalAssetCount
        = st.criticalAssetCount + (evs.filter fun e => e.statusCode == .ERROR).length := by
  induction evs with
  | nil => intro st; simp
  | cons e evs ih =>
      intro st
      rw [List.foldl_cons, ih, stepA_count]
      by_cases h : e.statusCode = .ERROR <;> simp [h]
      omega

theorem foldA_allEvents {α : Type} (evs : List (AssetEvent α)) :
    ∀ st : ScanState α, (List.foldl stepA st evs).allEvents = st.allEvents := by
  induction evs with
  | nil => intro st; rfl
  | cons e evs ih => intro st; rw [List.foldl_cons, ih, stepA_allEvents]

theorem foldA_allStatuses {α : Type} (evs : List (AssetEvent α)) :
    ∀ st : ScanState α, (List.foldl stepA st evs).allStatuses = st.allStatuses := by
  induction evs with
  | nil => intro st; rfl
  | cons e evs ih => intro st; rw [List.foldl_cons, ih, stepA_allStatuses]

theorem foldB_violations {α : Type} (sts : List OperatorStatus) :
    ∀ st : ScanState α,
      (List.foldl stepB st sts).violations = st.violations ++ sts.filterMap operatorCheck := by
  induction sts with
  | nil => intro st; simp
  | cons s sts ih =>
      intro st
      rw [List.foldl_cons, ih, stepB_violations]
      cases h : operatorCheck s <;> simp [h]

theorem foldB_count {α : Type} (sts : List OperatorStatus) :
    ∀ st : ScanState α,
      (List.foldl stepB st sts).criticalAssetCount = st.criticalAssetCount := by
  induction sts with
  | nil => intro st; rfl
  | cons s sts ih => intro st; rw [List.foldl_cons, ih, stepB_count]

theorem foldB_allEvents {α : Type} (sts : List OperatorStatus) :
    ∀ st : ScanState α, (List.foldl stepB st sts).allEvents = st.allEvents := by
  induction sts with
  | nil => intro st; rfl
  | cons s sts ih => intro st; rw [List.foldl_cons, ih, stepB_allEvents]

theorem foldB_allStatuses {α : Type} (sts : List OperatorStatus) :
    ∀ st : ScanState α, (List.foldl stepB st sts).allStatuses = st.allStatuses := by
  induction sts with
  | nil => intro st; rfl
  | cons s sts ih => intro st; rw [List.foldl_cons, ih, stepB_allStatuses]

theorem scanFinalState_violations {α : Type} (evs : List (AssetEvent α))
    (sts : List OperatorStatus) :
    (scanFinalState evs sts).violations
      = evs.filterMap assetCheck ++ sts.filterMap operatorCheck := by
  rw [scanFinalState, foldB_violations, foldA_violations]
  simp

theorem scanFinalState_count {α : Type} (evs : List (AssetEvent α))
    (sts : List OperatorStatus) :
    (scanFinalState evs sts).criticalAssetCount
      = (evs.filter fun e => e.statusCode == .ERROR).length := by
  rw [scanFinalState, foldB_count, foldA_count]
  simp

theorem runIntegrityScan_violations {α : Type} (t0 t1 t2 : ℤ)
    (evs : List (AssetEvent α)) (sts : List OperatorStatus) :
    (runIntegrityScan t0 t1 t2 evs sts).violations
      = evs.filterMap assetCheck ++ sts.filterMap operatorCheck := by
  rw [runIntegrityScan]
  exact scanFinalState_violations evs sts

theorem runIntegrityScan_count {α : Type} (t0 t1 t2 : ℤ)
    (evs : List (AssetEvent α)) (sts : List OperatorStatus) :
    (runIntegrityScan t0 t1 t2 evs sts).criticalAssetCount
      = (evs.filter fun e => e.statusCode == .ERROR).length := by
  rw [runIntegrityScan]
  exact scanFinalState_count evs sts

theorem runIntegrityScan_score {α : Type} (t0 t1 t2 : ℤ)
    (evs : List (AssetEvent α)) (sts : List OperatorStatus) :
    (runIntegrityScan t0 t1 t2 evs sts).systemHealthScore
      = (round ((max 0 (1 - (criticalCount (runIntegrityScan t0 t1 t2 evs sts).violations : ℚ)
          * mkRat 1 10)) * 100) : ℚ) / 100 := by
  rfl

theorem score_round_eq (c : ℕ) :
    ((round ((max 0 (1 - (c : ℚ) * mkRat 1 10)) * 100)) : ℚ) / 100
      = max 0 (1 - (c : ℚ) * mkRat 1 10) := by
  have hm : (mkRat 1 10 : ℚ) = 1 / 10 := by
    norm_num [Rat.mkRat_eq_divInt, Rat.divInt_eq_div]
  rw [hm]
  rcases le_or_lt ((c : ℚ) * (1 / 10)) 1 with h | h
  · rw [max_eq_right (by linarith)]
    have h100 : (1 - (c : ℚ) * (1 / 10)) * 100 = ((100 - 10 * (c : ℤ) : ℤ) : ℚ) := by
      push_cast
      ring
    rw [h100, round_intCast]
    push_cast
    ring
  · rw [max_eq_left (by linarith)]
    simp

theorem filterMap_id_sublist {β : Type} (f : β → Option Violation) (g : β → String)
    (hf : ∀ b v, f b = some v → v.id = g b) :
    ∀ l : List β, ((l.filterMap f).map Violation.id).Sublist (l.map g) := by
  intro l
  induction l with
  | nil => simp
  | cons b l ih =>
      cases h : f b with
      | none => simpa [List.filterMap_cons, h] using ih.cons (g b)
      | some v => simpa [List.filterMap_cons, h, hf b v h] using ih.cons₂ (g b)

theorem assetCheck_id {α : Type} (e : AssetEvent α) (v : Violation)
    (hv : assetCheck e = some v) : v.id = e.assetUuid := by
  simp only [assetCheck] at hv
  split_ifs at hv with h
  cases hv
  rfl

theorem operatorCheck_id (s : OperatorStatus) (v : Violation)
    (hv : operatorCheck s = some v) : v.id = s.operatorId := by
  simp only [operatorCheck] at hv
  split_ifs at hv with h1 h2
  · cases hv
    rfl
  · cases hv
    rfl

/-- Claim C2: `criticalAssetCount` counts exactly the ERROR asset events,
and a violation is emitted for an asset event iff it has ERROR status and
an absent/empty payload; that violation carries type DATA_INTEGRITY,
severity CRITICAL, protocolRef CCP-3.1, and id equal to the event's
`assetUuid`; operator checks contribute separately. -/
theorem scan_asset_pass_characterization {α : Type} (t0 t1 t2 : ℤ)
    (evs : List (AssetEvent α)) (sts : List OperatorStatus) :
    (runIntegrityScan t0 t1 t2 evs sts).criticalAssetCount
        = (evs.filter fun e => e.statusCode == .ERROR).length
    ∧ (runIntegrityScan t0 t1 t2 evs sts).violations
        = evs.filterMap (fun e =>
            if e.statusCode = .ERROR ∧ payloadMissing e.dataPayload then
              some (assetViolation e)
            else none) ++ sts.filterMap operatorCheck
    ∧ (∀ e : AssetEvent α, (assetViolation e).id = e.assetUuid
        ∧ (assetViolation e).type = .DATA_INTEGRITY
        ∧ (assetViolation e).severity = .CRITICAL
        ∧ (assetViolation e).protocolRef = "CCP-3.1") := by
  refine ⟨runIntegrityScan_count t0 t1 t2 evs sts, ?_, fun e => ⟨rfl, rfl, rfl, rfl⟩⟩
  rw [runIntegrityScan_violations]
  rfl

/-- Claim C4: the report's `systemHealthScore` equals
`max 0 (1 - 0.1 * c)` rounded to two decimals, where `c` is the number of
CRITICAL violations emitted; the rounding is the identity here, the score
is 0 whenever `c ≥ 10` and 1 when `c = 0`. -/
theorem scan_systemHealthScore_formula {α : Type} (t0 t1 t2 : ℤ)
    (evs : List (AssetEvent α)) (sts : List OperatorStatus) :
    (runIntegrityScan t0 t1 t2 evs sts).systemHealthScore
        = ((round ((max 0 (1 - (criticalCount (runIntegrityScan t0 t1 t2 evs sts).violations : ℚ)
            * mkRat 1 10)) * 100)) : ℚ) / 100
    ∧ (runIntegrityScan t0 t1 t2 evs sts).systemHealthScore
        = max 0 (1 - (criticalCount (runIntegrityScan t0 t1 t2 evs sts).violations : ℚ)
            * mkRat 1 10)
    ∧ (10 ≤ criticalCount (runIntegrityScan t0 t1 t2 evs sts).violations →
        (runIntegrityScan t0 t1 t2 evs sts).systemHealthScore = 0)
    ∧ (criticalCount (runIntegrityScan t0 t1 t2 evs sts).violations = 0 →
        (runIntegrityScan t0 t1 t2 evs sts).systemHealthScore = 1) := by
  have hmk : (mkRat 1 10 : ℚ) = 1 / 10 := by
    norm_num [Rat.mkRat_eq_divInt, Rat.divInt_eq_div]
  have h1 := runIntegrityScan_score t0 t1 t2 evs sts
  have h2 := h1.trans (score_round_eq _)
  refine ⟨h1, h2, ?_, ?_⟩
  · intro hc
    rw [h2, hmk]
    have hc10 : (10 : ℚ) ≤ (criticalCount (runIntegrityScan t0 t1 t2 evs sts).violations : ℚ) := by
      exact_mod_cast hc
    rw [max_eq_left (by linarith)]
  · intro hc
    rw [h2, hc]
    norm_num

/-- Witness for claim C4: with no violations the score is 1, and with ten
CRITICAL trust violations it is exactly 0. -/
theorem scan_systemHealthScore_formula_witness :
    (runIntegrityScan 0 0 0 ([] : List (AssetEvent Unit)) []).systemHealthScore = 1
    ∧ (runIntegrityScan 0 0 0 ([] : List (AssetEvent Unit))
        (List.replicate 10
          { operatorId := "OP-X", trustRating := mkRat 5 10, currentTaskId := some "T-0",
            lastKnownLocation := { latitude := 0, longitude := 0 },
            role := .AGENT })).systemHealthScore = 0 :=
  ⟨(scan_systemHealthScore_formula 0 0 0 ([] : List (AssetEvent Unit)) []).2.2.2 (by decide),
   (scan_systemHealthScore_formula 0 0 0 ([] : List (AssetEvent Unit))
      (List.replicate 10
        { operatorId := "OP-X", trustRating := mkRat 5 10, currentTaskId := some "T-0",
          lastKnownLocation := { latitude := 0, longitude := 0 },
          role := .AGENT })).2.2.1 (by decide)⟩

/-- Claim C5: the violations sequence is the asset-derived violations
followed by the operator-derived ones, and within each group the
violations appear in input order (their ids form a sublist of the input
ids, in order). -/
theorem scan_violation_ordering {α : Type} (t0 t1 t2 : ℤ)
    (evs : List (AssetEvent α)) (sts : List OperatorStatus) :
    (runIntegrityScan t0 t1 t2 evs sts).violations
        = evs.filterMap assetCheck ++ sts.filterMap operatorCheck
    ∧ ((evs.filterMap assetCheck).map Violation.id).Sublist
        (evs.map fun e => e.assetUuid)
    ∧ ((sts.filterMap operatorCheck).map Violation.id).Sublist
        (sts.map fun s => s.operatorId) := by
  refine ⟨runIntegrityScan_violations t0 t1 t2 evs sts, ?_, ?_⟩
  · exact filterMap_id_sublist assetCheck _ (fun e v hv => assetCheck_id e v hv) evs
  · exact filterMap_id_sublist operatorCheck _ (fun s v hv => operatorCheck_id s v hv) sts

/-- Claim C6: the scan has no side effect on its arguments: the two input
collections threaded through both loop passes come out unchanged. -/
theorem scan_inputs_unchanged {α : Type} (evs : List (AssetEvent α))
    (sts : List OperatorStatus) :
    (scanFinalState evs sts).allEvents = evs
    ∧ (scanFinalState evs sts).allStatuses = sts := by
  constructor
  · rw [scanFinalState, foldB_allEvents, foldA_allEvents]
  · rw [scanFinalState, foldB_allStatuses, foldA_allStatuses]

/-- Claim C7: the scan computation is deterministic: two invocations on
the same inputs (differing only in the wall-clock samples) agree on the
violations, the critical-asset count and the health score. -/
theorem scan_deterministic {α : Type} (t0 t1 t2 u0 u1 u2 : ℤ)
    (evs : List (AssetEvent α)) (sts : List OperatorStatus) :
    (runIntegrityScan t0 t1 t2 evs sts).violations
        = (runIntegrityScan u0 u1 u2 evs sts).violations
    ∧ (runIntegrityScan t0 t1 t2 evs sts).criticalAssetCount
        = (runIntegrityScan u0 u1 u2 evs sts).criticalAssetCount
    ∧ (runIntegrityScan t0 t1 t2 evs sts).systemHealthScore
        = (runIntegrityScan u0 u1 u2 evs sts).systemHealthScore :=
  ⟨rfl, rfl, rfl⟩

/-- Claim C10: on empty inputs the report has no violations, a zero
critical-asset count and a health score of 1; in general the number of
violations is bounded by the number of asset events plus the number of
operator statuses. -/
theorem scan_empty_and_bound {α : Type} (t0 t1 t2 : ℤ)
    (evs : List (AssetEvent α)) (sts : List OperatorStatus) :
    (runIntegrityScan t0 t1 t2 ([] : List (AssetEvent α)) []).violations = []
    ∧ (runIntegrityScan t0 t1 t2 ([] : List (AssetEvent α)) []).criticalAssetCount = 0
    ∧ (runIntegrityScan t0 t1 t2 ([] : List (AssetEvent α)) []).systemHealthScore = 1
    ∧ (runIntegrityScan t0 t1 t2 evs sts).violations.length ≤ evs.length + sts.length := by
  have hv : (runIntegrityScan t0 t1 t2 ([] : List (AssetEvent α)) []).violations = [] := by
    rw [runIntegrityScan_violations]
    rfl
  refine ⟨hv, ?_, ?_, ?_⟩
  · rw [runIntegrityScan_count]
    rfl
  · rw [runIntegrityScan_score, hv]
    norm_num [criticalCount, Rat.mkRat_eq_divInt, Rat.divInt_eq_div]
  · rw [runIntegrityScan_violations, List.length_append]
    exact Nat.add_le_add (List.length_filterMap_le _ _) (List.length_filterMap_le _ _)

/-- Claim C3: each operator status yields at most one violation, decided
by the two ordered branches of Pass B: sub-0.6 trust with an active task
gives the CRITICAL CCP-4.1 violation; otherwise sub-0.8 trust with no
task gives the WARNING CCP-4.2 violation; in particular sub-0.6 trust
with no task falls through to the WARNING branch, and the remaining
combinations yield nothing. -/
theorem scan_operator_branches (t0 t1 t2 : ℤ) (s : OperatorStatus) :
    ((s.trustRating < mkRat 6 10 ∧ s.currentTaskId ≠ none) →
      (runIntegrityScan t0 t1 t2 ([] : List (AssetEvent Unit)) [s]).violations
        = [trustViolation s])
    ∧ (¬(s.trustRating < mkRat 6 10 ∧ s.currentTaskId ≠ none) →
        (s.trustRating < mkRat 8 10 ∧ s.currentTaskId = none) →
        (runIntegrityScan t0 t1 t2 ([] : List (AssetEvent Unit)) [s]).violations
          = [breachViolation s])
    ∧ (s.trustRating < mkRat 6 10 → s.currentTaskId = none →
        (runIntegrityScan t0 t1 t2 ([] : List (AssetEvent Unit)) [s]).violations
          = [breachViolation s])
    ∧ ((mkRat 6 10 ≤ s.trustRating ∧ s.currentTaskId ≠ none) ∨
        (mkRat 8 10 ≤ s.trustRating ∧ s.currentTaskId = none) →
        (runIntegrityScan t0 t1 t2 ([] : List (AssetEvent Unit)) [s]).violations = [])
    ∧ (runIntegrityScan t0 t1 t2 ([] : List (AssetEvent Unit)) [s]).violations.length ≤ 1
    ∧ ((trustViolation s).id = s.operatorId ∧ (trustViolation s).type = .TRUST_VIOLATION
        ∧ (trustViolation s).severity = .CRITICAL
        ∧ (trustViolation s).protocolRef = "CCP-4.1")
    ∧ ((breachViolation s).id = s.operatorId ∧ (breachViolation s).type = .PROTOCOL_BREACH
        ∧ (breachViolation s).severity = .WARNING
        ∧ (breachViolation s).protocolRef = "CCP-4.2") := by
  have hv : (runIntegrityScan t0 t1 t2 ([] : List (AssetEvent Unit)) [s]).violations
      = (operatorCheck s).toList := by
    rw [runIntegrityScan_violations]
    cases h : operatorCheck s <;> simp [List.filterMap_cons, h]
  refine ⟨?_, ?_, ?_, ?_, ?_, ⟨rfl, rfl, rfl, rfl⟩, ⟨rfl, rfl, rfl, rfl⟩⟩
  · intro h1
    rw [hv, operatorCheck, if_pos h1]
    rfl
  · intro h1 h2
    rw [hv, operatorCheck, if_neg h1, if_pos h2]
    rfl
  · intro hlt hnone
    have h1 : ¬(s.trustRating < mkRat 6 10 ∧ s.currentTaskId ≠ none) := by
      intro hc
      exact hc.2 hnone
    have h8 : s.trustRating < mkRat 8 10 := lt_trans hlt (by decide)
    rw [hv, operatorCheck, if_neg h1, if_pos ⟨h8, hnone⟩]
    rfl
  · intro hcase
    rcases hcase with ⟨hge, htask⟩ | ⟨hge, htask⟩
    · have h1 : ¬(s.trustRating < mkRat 6 10 ∧ s.currentTaskId ≠ none) := by
        intro hc
        exact absurd hc.1 (not_lt.2 hge)
      have h2 : ¬(s.trustRating < mkRat 8 10 ∧ s.currentTaskId = none) := by
        intro hc
        exact htask hc.2
      rw [hv, operatorCheck, if_neg h1, if_neg h2]
      rfl
    · have h1 : ¬(s.trustRating < mkRat 6 10 ∧ s.currentTaskId ≠ none) := by
        intro hc
        exact hc.2 htask
      have h2 : ¬(s.trustRating < mkRat 8 10 ∧ s.currentTaskId = none) := by
        intro hc
        exact absurd hc.1 (not_lt.2 hge)
      rw [hv, operatorCheck, if_neg h1, if_neg h2]
      rfl
  · rw [hv]
    cases operatorCheck s <;> simp

/-- Witness for claim C3: an operator with trust 0.50 and no active task
produces exactly the single WARNING CCP-4.2 violation. -/
theorem scan_operator_branches_witness :
    (runIntegrityScan 0 0 0 ([] : List (AssetEvent Unit))
      [{ operatorId := "OP-LOW", trustRating := mkRat 5 10, currentTaskId := none,
         lastKnownLocation := { latitude := 0, longitude := 0 },
         role := .AGENT }]).violations
      = [breachViolation
          { operatorId := "OP-LOW", trustRating := mkRat 5 10, currentTaskId := none,
            lastKnownLocation := { latitude := 0, longitude := 0 }, role := .AGENT }] :=
  (scan_operator_branches 0 0 0
    { operatorId := "OP-LOW", trustRating := mkRat 5 10, currentTaskId := none,
      lastKnownLocation := { latitude := 0, longitude := 0 },
      role := .AGENT }).2.2.1 (by decide) rfl

/-- Claim C9: every violation the scan can emit carries one of exactly
three type/severity/protocolRef combinations; severity NOTICE and any
other protocol reference never occur. -/
theorem scan_violation_vocabulary {α : Type} (t0 t1 t2 : ℤ)
    (evs : List (AssetEvent α)) (sts : List OperatorStatus) (v : Violation)
    (hv : v ∈ (runIntegrityScan t0 t1 t2 evs sts).violations) :
    ((v.type = .DATA_INTEGRITY ∧ v.severity = .CRITICAL ∧ v.protocolRef = "CCP-3.1")
      ∨ (v.type = .TRUST_VIOLATION ∧ v.severity = .CRITICAL ∧ v.protocolRef = "CCP-4.1")
      ∨ (v.type = .PROTOCOL_BREACH ∧ v.severity = .WARNING ∧ v.protocolRef = "CCP-4.2"))
    ∧ v.severity ≠ .NOTICE := by
  rw [runIntegrityScan_violations, List.mem_append] at hv
  rcases hv with hv | hv
  · obtain ⟨e, _, hce⟩ := List.mem_filterMap.mp hv
    simp only [assetCheck] at hce
    split_ifs at hce with h
    cases hce
    exact ⟨Or.inl ⟨rfl, rfl, rfl⟩, by simp [assetViolation]⟩
  · obtain ⟨s, _, hcs⟩ := List.mem_filterMap.mp hv
    simp only [operatorCheck] at hcs
    split_ifs at hcs with h1 h2
    · cases hcs
      exact ⟨Or.inr (Or.inl ⟨rfl, rfl, rfl⟩), by simp [trustViolation]⟩
    · cases hcs
      exact ⟨Or.inr (Or.inr ⟨rfl, rfl, rfl⟩), by simp [breachViolation]⟩

/-- Witness for claim C9: the CCP-3.1 violation emitted by the mock scan
satisfies the vocabulary invariant. -/
theorem scan_violation_vocabulary_witness :
    ((mockAssetViolation.type = .DATA_INTEGRITY ∧ mockAssetViolation.severity = .CRITICAL
        ∧ mockAssetViolation.protocolRef = "CCP-3.1")
      ∨ (mockAssetViolation.type = .TRUST_VIOLATION ∧ mockAssetViolation.severity = .CRITICAL
        ∧ mockAssetViolation.protocolRef = "CCP-4.1")
      ∨ (mockAssetViolation.type = .PROTOCOL_BREACH ∧ mockAssetViolation.severity = .WARNING
        ∧ mockAssetViolation.protocolRef = "CCP-4.2"))
    ∧ mockAssetViolation.severity ≠ .NOTICE :=
  scan_violation_vocabulary 0 0 0 (MOCK_ASSET_EVENTS 0 0) MOCK_OPERATOR_STATUSES mockAssetViolation
    (by decide)

/-- Claim C1 (counterexample): on the documented mock fixtures the scan
returns three violations, not two as the specification states. -/
theorem mock_scan_not_two_violations :
    (runIntegrityScan 0 0 0 (MOCK_ASSET_EVENTS 0 0) MOCK_OPERATOR_STATUSES).violations.length
      ≠ 2 := by decide

/-- Claim C1 (amended): on the documented mock fixtures the scan returns
exactly three violations, with protocolRef values CCP-3.1 and CCP-4.1 at
severity CRITICAL and CCP-4.2 at severity WARNING, in that order, with
`criticalAssetCount = 1` and `systemHealthScore = 0.80`. -/
theorem mock_scan_report_facts (tA tB t0 t1 t2 : ℤ) :
    (runIntegrityScan t0 t1 t2 (MOCK_ASSET_EVENTS tA tB) MOCK_OPERATOR_STATUSES).violations.length
        = 3
    ∧ (runIntegrityScan t0 t1 t2 (MOCK_ASSET_EVENTS tA tB) MOCK_OPERATOR_STATUSES).violations.map
        (fun v => (v.protocolRef, v.severity))
        = [("CCP-3.1", .CRITICAL), ("CCP-4.1", .CRITICAL), ("CCP-4.2", .WARNING)]
    ∧ (runIntegrityScan t0 t1 t2 (MOCK_ASSET_EVENTS tA tB) MOCK_OPERATOR_STATUSES).criticalAssetCount
        = 1
    ∧ (runIntegrityScan t0 t1 t2 (MOCK_ASSET_EVENTS tA tB) MOCK_OPERATOR_STATUSES).systemHealthScore
        = mkRat 80 100 := by
  have c1 : ¬(mkRat 95 100 < mkRat 6 10 ∧ (some "T-456" : Option String) ≠ none) := by decide
  have c2 : ¬(mkRat 95 100 < mkRat 8 10 ∧ (some "T-456" : Option String) = none) := by decide
  have c3 : (mkRat 58 100 < mkRat 6 10 ∧ (some "T-789" : Option String) ≠ none) := by decide
  have c4 : ¬(mkRat 72 100 < mkRat 6 10 ∧ (none : Option String) ≠ none) := by decide
  have c5 : (mkRat 72 100 < mkRat 8 10 ∧ (none : Option String) = none) := by decide
  have hv : (runIntegrityScan t0 t1 t2 (MOCK_ASSET_EVENTS tA tB) MOCK_OPERATOR_STATUSES).violations
      = [ assetViolation ({ assetUuid := "ASSET-202", originKey := "SCAN-B", location := { latitude := mkRat 341 10, longitude := mkRat (-1181) 10, zoneId := some "Z2" }, timestamp := tB, statusCode := .ERROR, dataPayload := some [] } : AssetEvent Nat)
        , trustViolation { operatorId := "OP-JOE", trustRating := mkRat 58 100, currentTaskId := some "T-789", lastKnownLocation := { latitude := mkRat 3415 100, longitude := mkRat (-11815) 100 }, role := .AGENT }
        , breachViolation { operatorId := "OP-KORE", trustRating := mkRat 72 100, currentTaskId := none, lastKnownLocation := { latitude := mkRat 3420 100, longitude := mkRat (-11820) 100 }, role := .AGENT } ] := by
    rw [runIntegrityScan_violations]
    simp only [MOCK_ASSET_EVENTS, MOCK_OPERATOR_STATUSES, List.filterMap_cons,
      List.filterMap_nil, assetCheck, operatorCheck, payloadMissing, c1, c2, c3, c4, c5]
    norm_num
    simp
  have hc : criticalCount (runIntegrityScan t0 t1 t2 (MOCK_ASSET_EVENTS tA tB)
      MOCK_OPERATOR_STATUSES).violations = 2 := by
    rw [hv]
    rfl
  refine ⟨?_, ?_, ?_, ?_⟩
  · rw [hv]
    rfl
  · rw [hv]
    rfl
  · rw [runIntegrityScan_count]
    rfl
  · rw [runIntegrityScan_score, hc, score_round_eq]
    norm_num [Rat.mkRat_eq_divInt, Rat.divInt_eq_div]

/-- Claim C8: the Dashboard's execute-scan operation raises the
in-progress flag before the engine runs and lowers it afterwards on both
the success and the failure path; success replaces the held report with
the fresh one, failure logs the error and leaves the held report
untouched. -/
theorem executeScan_flag_and_report {ε : Type} (st : PageState)
    (outcome : Except ε IntegrityReport) :
    (executeScan st outcome).midState.isScanning = true
    ∧ (executeScan st outcome).midState.report = st.report
    ∧ (executeScan st outcome).finalState.isScanning = false
    ∧ (∀ r, outcome = .ok r → (executeScan st outcome).finalState.report = some r)
    ∧ (∀ e, outcome = .error e →
        (executeScan st outcome).finalState.report = st.report
        ∧ (executeScan st outcome).loggedError = true) := by
  cases outcome <;> simp [executeScan]

/-- Witness for claim C8: a failed scan leaves the previously held report
in place and logs the failure. -/
theorem executeScan_flag_and_report_witness :
    (executeScan { report := some { timestamp := 0, systemHealthScore := 1, criticalAssetCount := 0, violations := [], scanDurationMs := 0 }, isScanning := false } (Except.error "scan failed")).finalState.report
      = ({ report := some { timestamp := 0, systemHealthScore := 1, criticalAssetCount := 0, violations := [], scanDurationMs := 0 }, isScanning := false } : PageState).report
    ∧ (executeScan { report := some { timestamp := 0, systemHealthScore := 1, criticalAssetCount := 0, violations := [], scanDurationMs := 0 }, isScanning := false } (Except.error "scan failed")).loggedError = true :=
  (executeScan_flag_and_report
    { report := some { timestamp := 0, systemHealthScore := 1, criticalAssetCount := 0, violations := [], scanDurationMs := 0 }, isScanning := false }
    (Except.error "scan failed")).2.2.2.2 "scan failed" rfl
